import Mathlib

/-!
Shallow embedding of `assets/script.js` (portfolio page script).

Conventions of the embedding:
* JS strings are Lean `String`s (sequences of Unicode scalar values).
* A JS value that may be `null`/`undefined` is an `Option`.
* JS truthiness of an optional string (`if (s)`) is `jsTruthyStr`:
  `null`/`undefined` and the empty string are falsy.
* DOM writes are modelled as fields of explicit state records.
* ECMAScript builtins used by the script (`encodeURIComponent`,
  `decodeURIComponent`, `Date` + `toLocaleDateString`) are modelled as
  executable Lean functions, documented at their definitions.
-/

set_option maxRecDepth 100000

/-- JS truthiness of a nullable string: `null`/`undefined` and `""` are falsy. -/
def jsTruthyStr : Option String → Bool
  | none => false
  | some s => !(s == "")

/-- Predicate `firstMatches sub l` is true when `sub` is an initial segment of `l`. -/
def firstMatches : List Char → List Char → Bool
  | [], _ => true
  | _ :: _, [] => false
  | a :: as, b :: bs => (a == b) && firstMatches as bs

/-- Predicate `occursIn sub l` is true when `sub` occurs contiguously inside `l`. -/
def occursIn (sub : List Char) : List Char → Bool
  | [] => sub.isEmpty
  | c :: rest => firstMatches sub (c :: rest) || occursIn sub rest

/-- Substring test on strings (JS `String.prototype.includes`). -/
def strContains (s sub : String) : Bool :=
  occursIn sub.data s.data

/-- Split a character list at a separator character (used to parse `YYYY-MM-DD`). -/
def splitOnChar (sep : Char) : List Char → List (List Char)
  | [] => [[]]
  | c :: rest =>
    match splitOnChar sep rest with
    | [] => if c == sep then [[], []] else [[c]]
    | h :: t => if c == sep then [] :: h :: t else (c :: h) :: t

/-- Decimal value of a digit list; `none` when a non-digit appears or the list is empty. -/
def decimalVal? : List Char → Option Nat
  | [] => none
  | l => go l 0
where
  go : List Char → Nat → Option Nat
    | [], acc => some acc
    | c :: rest, acc =>
      if 48 ≤ c.toNat ∧ c.toNat ≤ 57 then go rest (acc * 10 + (c.toNat - 48)) else none

/-- Spanish month names as produced by `toLocaleDateString` with locale `es-ES`. -/
def monthNameEs : Nat → String
  | 1 => "enero"
  | 2 => "febrero"
  | 3 => "marzo"
  | 4 => "abril"
  | 5 => "mayo"
  | 6 => "junio"
  | 7 => "julio"
  | 8 => "agosto"
  | 9 => "septiembre"
  | 10 => "octubre"
  | 11 => "noviembre"
  | 12 => "diciembre"
  | _ => "Invalid Date"

/-- Model of `new Date(iso).toLocaleDateString` with locale `es-ES` and options
`year: numeric, month: long`, for ISO `YYYY-MM-DD` inputs: the month name, `de`,
and the year. Inputs that do not parse yield the JS `Invalid Date` rendering. -/
def localeFormatIsoDate (s : String) : String :=
  match splitOnChar (Char.ofNat 45) s.data with
  | [y, m, _] =>
    match decimalVal? m with
    | some mn => if 1 ≤ mn ∧ mn ≤ 12 then monthNameEs mn ++ " de " ++ String.mk y else "Invalid Date"
    | none => "Invalid Date"
  | _ => "Invalid Date"

/-- Function `utils.formatDate`: falsy input yields `"Actualidad"`, otherwise the
locale-formatted date. -/
def formatDate (dateString : Option String) : String :=
  if jsTruthyStr dateString then localeFormatIsoDate (dateString.getD "") else "Actualidad"

/-- Function `utils.createTimeTag`: falsy input yields `""`, otherwise a `<time>` element
with the raw ISO value as attribute and the formatted date as text. -/
def createTimeTag (dateString : Option String) : String :=
  if jsTruthyStr dateString then
    let ds := dateString.getD ""
    "<time datetime=\"" ++ ds ++ "\">" ++ formatDate dateString ++ "</time>"
  else ""

/-- Function `utils.safeTruncate`: `text.substring(0, maxLength) + ...` when over the limit.
JS `substring(0, n)` is the first `n` characters. -/
def safeTruncate (text : String) (maxLength : Nat) : String :=
  if text.length ≤ maxLength then text
  else String.mk (text.data.take maxLength) ++ "..."

/-- One entry of `personalData.social`. -/
structure Social where
  name : String
  url : String
  icon : String
deriving DecidableEq

/-- The `personal` section of the data document. -/
structure Personal where
  name : String
  title : String
  photo : String
  about : String
  email : String
  social : List Social
deriving DecidableEq

/-- The JSON-LD object built by `utils.generateJsonLd`. -/
structure JsonLd where
  context : String
  type : String
  name : String
  jobTitle : String
  url : String
  email : String
  image : String
  sameAs : List String
deriving DecidableEq

/-- Function `utils.generateJsonLd`. The source reads `window.location.href`; that ambient
read is made an explicit argument `href` of the embedding. -/
def generateJsonLd (personalData : Personal) (href : String) : JsonLd :=
  { context := "https://schema.org"
    type := "Person"
    name := personalData.name
    jobTitle := personalData.title
    url := href
    email := personalData.email
    image := personalData.photo
    sameAs := personalData.social.map (fun s => s.url) }

/-!
Model of the ECMAScript builtins `encodeURIComponent` / `decodeURIComponent`
(renderContactForm composes a `mailto:` URL with them).  `encodeURIComponent`
leaves the unreserved set `A-Z a-z 0-9 - _ . ! ~ * ( )` and the apostrophe
unchanged and percent-encodes the UTF-8 bytes of every other character using
uppercase hex digits.  `decodeURIComponent` inverts this.
-/

/-- A character `encodeURIComponent` leaves unchanged (checked by code point).
The set is `A-Z`, `a-z`, `0-9` and `- _ . ! ~ * ( )` plus the apostrophe
(code point 39). -/
def isUriUnreserved (c : Char) : Bool :=
  let n := c.toNat
  (65 ≤ n && n ≤ 90) || (97 ≤ n && n ≤ 122) || (48 ≤ n && n ≤ 57) ||
    n == 45 || n == 95 || n == 46 || n == 33 || n == 126 || n == 42 ||
    n == 39 || n == 40 || n == 41

/-- Uppercase hex digit for a value below 16. -/
def hexDigitChar (n : Nat) : Char :=
  if n < 10 then Char.ofNat (48 + n) else Char.ofNat (55 + n)

/-- UTF-8 byte sequence of a Unicode scalar value. -/
def utf8BytesOfChar (c : Char) : List Nat :=
  let n := c.toNat
  if n < 0x80 then [n]
  else if n < 0x800 then [0xC0 + n / 0x40, 0x80 + n % 0x40]
  else if n < 0x10000 then
    [0xE0 + n / 0x1000, 0x80 + n / 0x40 % 0x40, 0x80 + n % 0x40]
  else
    [0xF0 + n / 0x40000, 0x80 + n / 0x1000 % 0x40, 0x80 + n / 0x40 % 0x40, 0x80 + n % 0x40]

/-- Percent-encoding of one byte: `%` (code point 37) and two uppercase hex digits. -/
def pctTriple (b : Nat) : List Char :=
  [Char.ofNat 37, hexDigitChar (b / 16), hexDigitChar (b % 16)]

/-- Encoding of one character under `encodeURIComponent`. -/
def encodeUriChar (c : Char) : List Char :=
  if isUriUnreserved c then [c] else (utf8BytesOfChar c).flatMap pctTriple

/-- Model of the builtin `encodeURIComponent`. -/
def encodeURIComponent (s : String) : String :=
  String.mk (s.data.flatMap encodeUriChar)

/-- Numeric value of a hex digit character (0 for non-digits). -/
def hexVal (c : Char) : Nat :=
  let n := c.toNat
  if 48 ≤ n ∧ n ≤ 57 then n - 48
  else if 65 ≤ n ∧ n ≤ 70 then n - 55
  else if 97 ≤ n ∧ n ≤ 102 then n - 87
  else 0

/-- First phase of `decodeURIComponent`: turn the text back into a byte
sequence, replacing each `%XX` triple by its byte and every other character by
its UTF-8 bytes.  (Malformed trailing escapes, on which the real builtin throws
`URIError`, decode to nothing; the development only applies this to well-formed
encodings.) -/
def pctDecodeBytes : List Char → List Nat
  | [] => []
  | [c] => if c.toNat = 37 then [] else utf8BytesOfChar c
  | [c, c1] =>
    if c.toNat = 37 then [] else utf8BytesOfChar c ++ pctDecodeBytes [c1]
  | c :: h1 :: h2 :: rest =>
    if c.toNat = 37 then (hexVal h1 * 16 + hexVal h2) :: pctDecodeBytes rest
    else utf8BytesOfChar c ++ pctDecodeBytes (h1 :: h2 :: rest)

/-- Scalar value of a two-byte UTF-8 sequence. -/
def utf8Cont1 (b0 b1 : Nat) : Char :=
  Char.ofNat ((b0 - 0xC0) * 0x40 + (b1 - 0x80))

/-- Scalar value of a three-byte UTF-8 sequence. -/
def utf8Cont2 (b0 b1 b2 : Nat) : Char :=
  Char.ofNat ((b0 - 0xE0) * 0x1000 + (b1 - 0x80) * 0x40 + (b2 - 0x80))

/-- Scalar value of a four-byte UTF-8 sequence. -/
def utf8Cont3 (b0 b1 b2 b3 : Nat) : Char :=
  Char.ofNat ((b0 - 0xF0) * 0x40000 + (b1 - 0x80) * 0x1000 + (b2 - 0x80) * 0x40 + (b3 - 0x80))

/-- Second phase of `decodeURIComponent`: decode a UTF-8 byte sequence.
The leading byte selects the sequence length; truncated multi-byte sequences
decode to nothing. -/
def utf8DecodeBytes : List Nat → List Char
  | [] => []
  | [b0] => if b0 < 0x80 then [Char.ofNat b0] else []
  | [b0, b1] =>
    if b0 < 0x80 then Char.ofNat b0 :: utf8DecodeBytes [b1]
    else if b0 < 0xE0 then [utf8Cont1 b0 b1]
    else []
  | [b0, b1, b2] =>
    if b0 < 0x80 then Char.ofNat b0 :: utf8DecodeBytes [b1, b2]
    else if b0 < 0xE0 then utf8Cont1 b0 b1 :: utf8DecodeBytes [b2]
    else if b0 < 0xF0 then [utf8Cont2 b0 b1 b2]
    else []
  | b0 :: b1 :: b2 :: b3 :: rest =>
    if b0 < 0x80 then Char.ofNat b0 :: utf8DecodeBytes (b1 :: b2 :: b3 :: rest)
    else if b0 < 0xE0 then utf8Cont1 b0 b1 :: utf8DecodeBytes (b2 :: b3 :: rest)
    else if b0 < 0xF0 then utf8Cont2 b0 b1 b2 :: utf8DecodeBytes (b3 :: rest)
    else utf8Cont3 b0 b1 b2 b3 :: utf8DecodeBytes rest

/-- Model of the builtin `decodeURIComponent`. -/
def decodeURIComponent (s : String) : String :=
  String.mk (utf8DecodeBytes (pctDecodeBytes s.data))

/-! Section: the dataLoader module. -/

/-- One skills category (`skills` entry). -/
structure SkillCategory where
  category : String
  items : List String
deriving DecidableEq

/-- One `experience` entry. `startDate`/`endDate` may be absent. -/
structure Job where
  title : String
  company : String
  location : String
  startDate : Option String
  endDate : Option String
  description : String
  tags : List String
deriving DecidableEq

/-- One `certifications` entry. -/
structure Certification where
  name : String
  issuer : String
  date : Option String
  url : String
deriving DecidableEq

/-- One `events` entry. -/
structure Event where
  title : String
  type : String
  location : String
  date : Option String
  url : String
deriving DecidableEq

/-- One `academic` entry. -/
structure AcademicEntry where
  degree : String
  institution : String
  startDate : Option String
  endDate : Option String
deriving DecidableEq

/-- A fetched and JSON-parsed document, before validation.  For the three
validated sections, `none` models exactly the JS-falsy values (`undefined`,
`null`, and the other falsy primitives) that make `!data.x` true; the
remaining sections are not inspected by `validateData` and are modelled as
plain lists. -/
structure RawDoc where
  personal : Option Personal
  skills : Option (List SkillCategory)
  experience : Option (List Job)
  certifications : List Certification
  events : List Event
  academic : List AcademicEntry

/-- A document that passed validation (all three key sections present). -/
structure PortfolioData where
  personal : Personal
  skills : List SkillCategory
  experience : List Job
  certifications : List Certification
  events : List Event
  academic : List AcademicEntry

/-- Function `dataLoader.validateData`: throws unless `personal`, `skills` and
`experience` are all truthy; here, the Boolean that decides between the normal
return and the thrown error. -/
def validateData (data : RawDoc) : Bool :=
  data.personal.isSome && data.skills.isSome && data.experience.isSome

/-- The static error markup assigned to `document.body.innerHTML` by the
`catch` branch of `loadData`. -/
def ERROR_BODY : String :=
  "<p style=\"text-align: center; padding: 50px;\">Error al cargar el portfolio. Por favor, revisa el archivo data.json.</p>"

/-- Outcome of `fetch(DATA_PATH)` followed by `response.json()`: either a
failure (non-ok response or invalid JSON) or a parsed document. -/
inductive FetchResult where
  | failure
  | success (data : RawDoc)

/-- Repackage a validated `RawDoc` (the JS code keeps using the same object;
the embedding makes the three guaranteed sections non-optional). -/
def extractData (data : RawDoc) (h : validateData data = true) : PortfolioData :=
  have h3 : (data.personal.isSome = true ∧ data.skills.isSome = true) ∧
      data.experience.isSome = true := by
    simpa [validateData, Bool.and_eq_true] using h
  { personal := data.personal.get h3.1.1
    skills := data.skills.get h3.1.2
    experience := data.experience.get h3.2
    certifications := data.certifications
    events := data.events
    academic := data.academic }

/-- Function `dataLoader.loadData`: returns the data (or `null` after any fetch,
parse or validation error) paired with the body replacement performed by the
`catch` branch (`some ERROR_BODY` exactly when the error path ran). -/
def loadData (fetched : FetchResult) : Option PortfolioData × Option String :=
  match fetched with
  | .failure => (none, some ERROR_BODY)
  | .success data =>
    if h : validateData data = true then (some (extractData data h), none)
    else (none, some ERROR_BODY)

/-! ### renderer -/

/-- Function `renderer.renderTag`. -/
def renderTag (text : String) : String :=
  "<span class=\"tag\">" ++ text ++ "</span>"

/-- Expression `data.icon.charAt(0).toUpperCase()`: first character uppercased, empty
string for an empty icon. -/
def iconInitial (icon : String) : String :=
  match icon.data with
  | [] => ""
  | c :: _ => String.mk [c.toUpper]

/-- The `#main-header` markup written by `renderPersonal`. -/
def personalHeaderHtml (data : Personal) : String :=
  "<img src=\"" ++ data.photo ++ "\" alt=\"Foto de perfil de " ++ data.name ++
    "\" class=\"profile__photo\" loading=\"lazy\"><h1 class=\"profile__name\">" ++ data.name ++
    "</h1><p class=\"profile__title\">" ++ data.title ++ "</p>"

/-- One social link of the `#contact-info` markup. -/
def socialLinkHtml (s : Social) : String :=
  "<a href=\"" ++ s.url ++
    "\" target=\"_blank\" rel=\"noopener noreferrer\" class=\"social-link\" aria-label=\"" ++
    s.name ++ "\"><span aria-hidden=\"true\">" ++ iconInitial s.icon ++ "</span> " ++ s.name ++ "</a>"

/-- The `#contact-info` markup: the social links, then the appended email link. -/
def contactInfoHtml (data : Personal) : String :=
  String.join (data.social.map socialLinkHtml) ++
    ("<a href=\"mailto:" ++ data.email ++
      "\" class=\"social-link\" aria-label=\"Enviar correo electrónico a " ++ data.name ++
      "\"><span aria-hidden=\"true\">✉️</span> Email</a>")

/-- One `skills` category card. -/
def skillCategoryHtml (category : SkillCategory) : String :=
  "<div class=\"card skills__category\" role=\"group\" aria-labelledby=\"skill-cat-" ++
    category.category ++ "\"><h3 id=\"skill-cat-" ++ category.category ++
    "\" class=\"card__title\">" ++ category.category ++
    "</h3><div class=\"skills__category-list\">" ++ String.join (category.items.map renderTag) ++
    "</div></div>"

/-- Function `renderer.renderSkills` (the `#skills-content` markup). -/
def renderSkills (skills : List SkillCategory) : String :=
  String.join (skills.map skillCategoryHtml)

/-- The body of the `renderExperience` map callback: one timeline item, given
the side class computed from the index. -/
def renderJobItem (job : Job) (sideClass : String) : String :=
  let startDate := createTimeTag job.startDate
  let endDate := if jsTruthyStr job.endDate then createTimeTag job.endDate else "Actualidad"
  "<div class=\"timeline__item " ++ sideClass ++ "\" role=\"listitem\"><div class=\"timeline__content card\"><h3 class=\"card__title\">" ++
    job.title ++ "</h3><p class=\"card__subtitle\">" ++ job.company ++ " - " ++ job.location ++
    "</p><p class=\"timeline__date\">" ++ startDate ++ " - " ++ endDate ++ "</p><p>" ++
    job.description ++ "</p><div class=\"tags-container\" aria-label=\"Tecnologías utiliBzadas\">" ++
    String.join (job.tags.map renderTag) ++ "</div></div></div>"

/-- Loop `experience.map((job, index) => ...)` with the running index made explicit:
even indices get the default (empty) side class, odd indices get
`timeline__item--right`. -/
def expItemsFrom (i : Nat) : List Job → List String
  | [] => []
  | job :: rest =>
    renderJobItem job (if i % 2 = 0 then "" else "timeline__item--right") :: expItemsFrom (i + 1) rest

/-- The timeline items of `renderExperience`, in order. -/
def renderExperienceItems (experience : List Job) : List String :=
  expItemsFrom 0 experience

/-- Function `renderer.renderExperience` (the `#experience-timeline` markup). -/
def renderExperience (experience : List Job) : String :=
  String.join (renderExperienceItems experience)

/-- One certification card of `renderCertifications`. -/
def certificationHtml (cert : Certification) : String :=
  "<a href=\"" ++ cert.url ++
    "\" target=\"_blank\" rel=\"noopener noreferrer\" class=\"card\" role=\"listitem\"><h3 class=\"card__title\">" ++
    cert.name ++ "</h3><p class=\"card__subtitle\">" ++ cert.issuer ++
    "</p><p class=\"timeline__date\">" ++ createTimeTag cert.date ++ "</p></a>"

/-- Function `renderer.renderCertifications` (the `#certifications-cards` markup). -/
def renderCertifications (certifications : List Certification) : String :=
  String.join (certifications.map certificationHtml)

/-- One event item of `renderEvents`. -/
def eventHtml (event : Event) : String :=
  "<div class=\"list-item\" role=\"listitem\"><div class=\"list-item__header\"><h4 class=\"list-item__title\"><a href=\"" ++
    event.url ++ "\" target=\"_blank\" rel=\"noopener noreferrer\">" ++ event.title ++
    "</a></h4><p class=\"list-item__date\">" ++ createTimeTag event.date ++
    "</p></div><p class=\"list-item__subtitle\">" ++ event.type ++ " en " ++ event.location ++
    "</p></div>"

/-- Function `renderer.renderEvents` (the `#events-list` markup). -/
def renderEvents (events : List Event) : String :=
  String.join (events.map eventHtml)

/-- The academic item template with the two date slots explicit. -/
def academicItemHtml (degree startD endD institution : String) : String :=
  "<div class=\"list-item\" role=\"listitem\"><div class=\"list-item__header\"><h4 class=\"list-item__title\">" ++
    degree ++ "</h4><p class=\"list-item__date\">" ++ startD ++ " - " ++ endD ++
    "</p></div><p class=\"list-item__subtitle\">" ++ institution ++ "</p></div>"

/-- The body of the `renderAcademic` map callback: both date slots go through
`createTimeTag` (unlike `renderExperience`, there is no `Actualidad` fallback). -/
def renderAcademicItem (item : AcademicEntry) : String :=
  academicItemHtml item.degree (createTimeTag item.startDate) (createTimeTag item.endDate)
    item.institution

/-- Function `renderer.renderAcademic` (the `#academic-list` markup). -/
def renderAcademic (academic : List AcademicEntry) : String :=
  String.join (academic.map renderAcademicItem)

/-! Section: the contact form handler. -/

/-- The four visible fields and the hidden honeypot field of the contact form
at submit time. -/
structure FormFields where
  name : String
  email : String
  subject : String
  message : String
  fax : String

/-- Observable effects of one run of the form submit handler. -/
structure SubmitEffects where
  warned : Option String
  alerted : Option String
  navigatedTo : Option String
  formReset : Bool
deriving DecidableEq

/-- The plain-text mail body composed by the submit handler before encoding. -/
def mailtoBodyText (ownerName visitorName visitorEmail message : String) : String :=
  "Hola " ++ ownerName ++ ",\n\nMi nombre es " ++ visitorName ++ " (" ++ visitorEmail ++
    ").\n\n" ++ message ++ "\n\nSaludos."

/-- The submit handler attached by `renderContactForm`: a truthy honeypot value
takes the spam branch (warn, alert, reset, no navigation); otherwise the
handler navigates to the composed `mailto:` URL and resets the form. -/
def handleSubmit (personalData : Personal) (f : FormFields) : SubmitEffects :=
  if jsTruthyStr (some f.fax) then
    { warned := some "Intento de spam detectado (honeypot)."
      alerted := some "Mensaje enviado (simulación). Gracias por tu interés."
      navigatedTo := none
      formReset := true }
  else
    let mailtoSubject := encodeURIComponent ("[Portfolio] " ++ f.subject)
    let mailtoBody :=
      encodeURIComponent (mailtoBodyText personalData.name f.name f.email f.message)
    { warned := none
      alerted := none
      navigatedTo :=
        some ("mailto:" ++ personalData.email ++ "?subject=" ++ mailtoSubject ++ "&body=" ++ mailtoBody)
      formReset := true }

/-! Section: renderAll and the bootstrap. -/

/-- The DOM containers written by one full render pass. -/
structure RenderedPage where
  headerHtml : String
  aboutHtml : String
  contactHtml : String
  jsonLd : JsonLd
  skillsHtml : String
  experienceHtml : String
  certificationsHtml : String
  eventsHtml : String
  academicHtml : String

/-- Function `renderer.renderAll`: every section renderer runs, in source order.
`href` is the ambient `window.location.href` read by `generateJsonLd`. -/
def renderAll (href : String) (data : PortfolioData) : RenderedPage :=
  { headerHtml := personalHeaderHtml data.personal
    aboutHtml := "<p>" ++ data.personal.about ++ "</p>"
    contactHtml := contactInfoHtml data.personal
    jsonLd := generateJsonLd data.personal href
    skillsHtml := renderSkills data.skills
    experienceHtml := renderExperience data.experience
    certificationsHtml := renderCertifications data.certifications
    eventsHtml := renderEvents data.events
    academicHtml := renderAcademic data.academic }

/-- The page after the load-and-render phase of the `DOMContentLoaded`
handler: either the whole body was replaced by the static error markup (and no
renderer ran), or every section was rendered. -/
inductive PageState where
  | errorPage (body : String)
  | rendered (page : RenderedPage)

/-- The load-and-render phase of the `DOMContentLoaded` handler:
`loadData` then, only for non-null data, `renderAll`. -/
def boot (href : String) (fetched : FetchResult) : PageState :=
  match loadData fetched with
  | (some data, _) => PageState.rendered (renderAll href data)
  | (none, _) => PageState.errorPage ERROR_BODY

/-! Section: the theme controller. -/

/-- Theme-related state: the `dark-mode` body class, the toggle control's
`aria-checked` attribute and tooltip, and the local-storage entry under the
fixed key `theme`. -/
structure ThemeState where
  darkMode : Bool
  ariaChecked : String
  title : String
  stored : Option String
deriving DecidableEq

/-- Function `applyTheme`: branches on `theme === "dark"`, sets the body class,
the toggle attribute and tooltip, and persists the argument string itself
under the `theme` key. -/
def applyTheme (theme : String) : ThemeState :=
  if theme == "dark" then
    { darkMode := true
      ariaChecked := "true"
      title := "Cambiar a tema claro"
      stored := some theme }
  else
    { darkMode := false
      ariaChecked := "false"
      title := "Cambiar a tema oscuro"
      stored := some theme }

/-- Initial theme resolution of the `DOMContentLoaded` handler: a truthy
stored value is applied as-is; otherwise the OS preference decides between
`dark` and `light`. -/
def initTheme (savedTheme : Option String) (prefersDark : Bool) : ThemeState :=
  if jsTruthyStr savedTheme then applyTheme (savedTheme.getD "")
  else if prefersDark then applyTheme "dark"
  else applyTheme "light"

/-- The toggle click handler: reads the current mode from the body class and
applies the opposite theme. -/
def toggleTheme (st : ThemeState) : ThemeState :=
  applyTheme (if st.darkMode then "light" else "dark")

/-! Section: substring lemmas for the containment claims. -/

theorem occursIn_nil_sub (l : List Char) : occursIn [] l = true := by
  cases l <;> simp [occursIn, firstMatches, List.isEmpty]

theorem firstMatches_append_self (sub rest : List Char) :
    firstMatches sub (sub ++ rest) = true := by
  induction sub with
  | nil => simp [firstMatches]
  | cons a as ih => simp [firstMatches, ih]

theorem occursIn_append_self (sub q : List Char) : occursIn sub (sub ++ q) = true := by
  cases sub with
  | nil => simpa using occursIn_nil_sub q
  | cons a as =>
    show (firstMatches (a :: as) ((a :: as) ++ q) || occursIn (a :: as) (as ++ q)) = true
    rw [firstMatches_append_self]
    simp

theorem occursIn_append_right (p : List Char) {sub l : List Char}
    (h : occursIn sub l = true) : occursIn sub (p ++ l) = true := by
  induction p with
  | nil => simpa using h
  | cons c p ih =>
    show (firstMatches sub (c :: (p ++ l)) || occursIn sub (p ++ l)) = true
    rw [ih]; simp

/-! Section: roundtrip of the URI-component encoding. -/

theorem char_toNat_lt_uniMax (c : Char) : c.toNat < 0x110000 := by
  rcases c.valid with h | ⟨_, h2⟩
  · have : c.val.toNat < 0xd800 := UInt32.toNat_lt_of_lt (by decide) h
    show c.val.toNat < 0x110000
    omega
  · exact UInt32.toNat_lt_of_lt (by decide) h2

theorem utf8BytesOfChar_lt (c : Char) : ∀ b ∈ utf8BytesOfChar c, b < 256 := by
  intro b hb
  have hc := char_toNat_lt_uniMax c
  by_cases h1 : c.toNat < 0x80
  · simp [utf8BytesOfChar, h1] at hb; omega
  · by_cases h2 : c.toNat < 0x800
    · simp [utf8BytesOfChar, h1, h2] at hb
      rcases hb with hb | hb <;> omega
    · by_cases h3 : c.toNat < 0x10000
      · simp [utf8BytesOfChar, h1, h2, h3] at hb
        rcases hb with hb | hb | hb <;> omega
      · simp [utf8BytesOfChar, h1, h2, h3] at hb
        rcases hb with hb | hb | hb | hb <;> omega

theorem utf8Cont1_encodes (c : Char) (hl : 0x80 ≤ c.toNat) (hu : c.toNat < 0x800) :
    utf8Cont1 (0xC0 + c.toNat / 0x40) (0x80 + c.toNat % 0x40) = c := by
  unfold utf8Cont1
  rw [show (0xC0 + c.toNat / 0x40 - 0xC0) * 0x40 + (0x80 + c.toNat % 0x40 - 0x80) = c.toNat
    from by omega]
  exact Char.ofNat_toNat c

theorem utf8Cont2_encodes (c : Char) (hl : 0x800 ≤ c.toNat) (hu : c.toNat < 0x10000) :
    utf8Cont2 (0xE0 + c.toNat / 0x1000) (0x80 + c.toNat / 0x40 % 0x40) (0x80 + c.toNat % 0x40) = c := by
  unfold utf8Cont2
  rw [show (0xE0 + c.toNat / 0x1000 - 0xE0) * 0x1000 +
      (0x80 + c.toNat / 0x40 % 0x40 - 0x80) * 0x40 + (0x80 + c.toNat % 0x40 - 0x80) = c.toNat
    from by omega]
  exact Char.ofNat_toNat c

theorem utf8Cont3_encodes (c : Char) (hl : 0x10000 ≤ c.toNat) (hu : c.toNat < 0x110000) :
    utf8Cont3 (0xF0 + c.toNat / 0x40000) (0x80 + c.toNat / 0x1000 % 0x40)
      (0x80 + c.toNat / 0x40 % 0x40) (0x80 + c.toNat % 0x40) = c := by
  unfold utf8Cont3
  rw [show (0xF0 + c.toNat / 0x40000 - 0xF0) * 0x40000 +
      (0x80 + c.toNat / 0x1000 % 0x40 - 0x80) * 0x1000 +
      (0x80 + c.toNat / 0x40 % 0x40 - 0x80) * 0x40 + (0x80 + c.toNat % 0x40 - 0x80) = c.toNat
    from by omega]
  exact Char.ofNat_toNat c

theorem utf8DecodeBytes_encChar (c : Char) (rest : List Nat) :
    utf8DecodeBytes (utf8BytesOfChar c ++ rest) = c :: utf8DecodeBytes rest := by
  have hc := char_toNat_lt_uniMax c
  by_cases h1 : c.toNat < 0x80
  · rw [show utf8BytesOfChar c = [c.toNat] from by simp [utf8BytesOfChar, h1]]
    rcases rest with _ | ⟨r1, _ | ⟨r2, _ | ⟨r3, rr⟩⟩⟩ <;>
      simp [utf8DecodeBytes, h1, Char.ofNat_toNat]
  · by_cases h2 : c.toNat < 0x800
    · rw [show utf8BytesOfChar c = [0xC0 + c.toNat / 0x40, 0x80 + c.toNat % 0x40] from by
        simp [utf8BytesOfChar, h1, h2]]
      have ha : ¬ (0xC0 + c.toNat / 0x40 < 0x80) := by omega
      have hb : 0xC0 + c.toNat / 0x40 < 0xE0 := by omega
      have he := utf8Cont1_encodes c (by omega) h2
      rcases rest with _ | ⟨r1, _ | ⟨r2, rr⟩⟩ <;>
        simp [utf8DecodeBytes, ha, hb, he]
    · by_cases h3 : c.toNat < 0x10000
      · rw [show utf8BytesOfChar c =
            [0xE0 + c.toNat / 0x1000, 0x80 + c.toNat / 0x40 % 0x40, 0x80 + c.toNat % 0x40] from by
          simp [utf8BytesOfChar, h1, h2, h3]]
        have ha : ¬ (0xE0 + c.toNat / 0x1000 < 0x80) := by omega
        have hb : ¬ (0xE0 + c.toNat / 0x1000 < 0xE0) := by omega
        have hd : 0xE0 + c.toNat / 0x1000 < 0xF0 := by omega
        have he := utf8Cont2_encodes c (by omega) h3
        rcases rest with _ | ⟨r1, rr⟩ <;>
          simp [utf8DecodeBytes, ha, hb, hd, he]
      · rw [show utf8BytesOfChar c =
            [0xF0 + c.toNat / 0x40000, 0x80 + c.toNat / 0x1000 % 0x40,
             0x80 + c.toNat / 0x40 % 0x40, 0x80 + c.toNat % 0x40] from by
          simp [utf8BytesOfChar, h1, h2, h3]]
        have ha : ¬ (0xF0 + c.toNat / 0x40000 < 0x80) := by omega
        have hb : ¬ (0xF0 + c.toNat / 0x40000 < 0xE0) := by omega
        have hd : ¬ (0xF0 + c.toNat / 0x40000 < 0xF0) := by omega
        have he := utf8Cont3_encodes c (by omega) hc
        simp [utf8DecodeBytes, ha, hb, hd, he]

theorem hexVal_hexDigitChar (d : Nat) (h : d < 16) : hexVal (hexDigitChar d) = d := by
  interval_cases d <;> rfl

theorem pctDecodeBytes_triples (bs : List Nat) (rest : List Char)
    (hb : ∀ b ∈ bs, b < 256) :
    pctDecodeBytes (bs.flatMap pctTriple ++ rest) = bs ++ pctDecodeBytes rest := by
  induction bs with
  | nil => simp
  | cons b bs ih =>
    have hb0 : b < 256 := hb b (by simp)
    have h37 : (Char.ofNat 37).toNat = 37 := by decide
    have hv1 : hexVal (hexDigitChar (b / 16)) = b / 16 := hexVal_hexDigitChar _ (by omega)
    have hv2 : hexVal (hexDigitChar (b % 16)) = b % 16 := hexVal_hexDigitChar _ (by omega)
    show pctDecodeBytes ((pctTriple b ++ bs.flatMap pctTriple) ++ rest) = (b :: bs) ++ pctDecodeBytes rest
    rw [List.append_assoc]
    show pctDecodeBytes (Char.ofNat 37 :: hexDigitChar (b / 16) :: hexDigitChar (b % 16) ::
      (bs.flatMap pctTriple ++ rest)) = (b :: bs) ++ pctDecodeBytes rest
    rw [pctDecodeBytes, if_pos h37, hv1, hv2, ih (fun x hx => hb x (by simp [hx])),
      show b / 16 * 16 + b % 16 = b from by omega]
    simp

theorem pctDecodeBytes_encChar (c : Char) (rest : List Char) :
    pctDecodeBytes (encodeUriChar c ++ rest) = utf8BytesOfChar c ++ pctDecodeBytes rest := by
  by_cases h : isUriUnreserved c = true
  · have hne : ¬ (c.toNat = 37) := by
      have h' := h
      simp only [isUriUnreserved, Bool.or_eq_true, Bool.and_eq_true, decide_eq_true_eq,
        beq_iff_eq] at h'
      omega
    rw [show encodeUriChar c = [c] from by simp [encodeUriChar, h]]
    rcases rest with _ | ⟨c1, _ | ⟨c2, rr⟩⟩ <;> simp [pctDecodeBytes, hne]
  · rw [show encodeUriChar c = (utf8BytesOfChar c).flatMap pctTriple from by
      simp [encodeUriChar, h]]
    exact pctDecodeBytes_triples _ rest (utf8BytesOfChar_lt c)

theorem pctDecodeBytes_encode (l : List Char) :
    pctDecodeBytes (l.flatMap encodeUriChar) = l.flatMap utf8BytesOfChar := by
  induction l with
  | nil => rfl
  | cons c l ih =>
    simp only [List.flatMap_cons]
    rw [pctDecodeBytes_encChar, ih]

theorem utf8DecodeBytes_flatMap (l : List Char) :
    utf8DecodeBytes (l.flatMap utf8BytesOfChar) = l := by
  induction l with
  | nil => rfl
  | cons c l ih =>
    simp only [List.flatMap_cons]
    rw [utf8DecodeBytes_encChar, ih]

/-- Builtin model `decodeURIComponent` inverts `encodeURIComponent` on every string. -/
theorem decodeURIComponent_encodeURIComponent (s : String) :
    decodeURIComponent (encodeURIComponent s) = s := by
  show String.mk (utf8DecodeBytes (pctDecodeBytes (s.data.flatMap encodeUriChar))) = s
  rw [pctDecodeBytes_encode, utf8DecodeBytes_flatMap]

/-! Section: claim theorems. -/

/-- C1: for every fetched document in which any of `personal`, `skills`,
`experience` is missing or falsy, `loadData` takes the fatal error path: it
returns `null` to the caller and replaces the entire document body with the
single static error message, and the bootstrap renders no section (never a
partial render). -/
theorem loadData_missing_section_fatal (href : String) (d : RawDoc)
    (h : d.personal = none ∨ d.skills = none ∨ d.experience = none) :
    loadData (FetchResult.success d) = (none, some ERROR_BODY) ∧
    boot href (FetchResult.success d) = PageState.errorPage ERROR_BODY := by
  have hv : ¬ (validateData d = true) := by
    rcases h with h | h | h <;> simp [validateData, h]
  constructor
  · simp [loadData, hv]
  · simp [boot, loadData, hv]

/-- Witness for C1 at a concrete document with `personal` missing. -/
theorem loadData_missing_section_fatal_witness :
    loadData (FetchResult.success ⟨none, some [], some [], [], [], []⟩) =
      (none, some ERROR_BODY) ∧
    boot "https://example.org/" (FetchResult.success ⟨none, some [], some [], [], [], []⟩) =
      PageState.errorPage ERROR_BODY :=
  loadData_missing_section_fatal "https://example.org/" ⟨none, some [], some [], [], [], []⟩
    (Or.inl rfl)

/-- C2: `safeTruncate text n` returns `text` unchanged when `text.length ≤ n`;
otherwise it returns exactly the first `n` characters of `text` followed by the
three-character ellipsis marker, so the result has length `n + 3`. -/
theorem safeTruncate_spec (text : String) (n : Nat) :
    (text.length ≤ n → safeTruncate text n = text) ∧
    (n < text.length →
      safeTruncate text n = String.mk (text.data.take n) ++ "..." ∧
      (safeTruncate text n).length = n + 3) := by
  constructor
  · intro h
    simp [safeTruncate, h]
  · intro h
    have h' : ¬ text.length ≤ n := by omega
    refine ⟨by simp [safeTruncate, h'], ?_⟩
    rw [show safeTruncate text n = String.mk (text.data.take n) ++ "..." from by
      simp [safeTruncate, h']]
    rw [String.length_append, String.length_mk, List.length_take]
    have hd : text.length = text.data.length := rfl
    have h3 : ("..." : String).length = 3 := rfl
    omega

/-- Witness for C2 at `"abcdef"` with limit 3 (truncating branch) and `"ab"`
with limit 5 (unchanged branch). -/
theorem safeTruncate_spec_witness :
    (safeTruncate "abcdef" 3 = String.mk ("abcdef".data.take 3) ++ "..." ∧
      (safeTruncate "abcdef" 3).length = 3 + 3) ∧
    safeTruncate "ab" 5 = "ab" :=
  ⟨(safeTruncate_spec "abcdef" 3).2 (by decide), (safeTruncate_spec "ab" 5).1 (by decide)⟩

/-- C10: the formatting utilities treat the empty string like an absent date:
`formatDate ""` is exactly `"Actualidad"` and `createTimeTag ""` is the empty
string, because both test JS falsiness rather than `null` specifically. -/
theorem formatDate_createTimeTag_empty :
    formatDate (some "") = "Actualidad" ∧ createTimeTag (some "") = "" := by
  constructor <;> rfl

/-- C8 counterexample: `generateJsonLd` is not a function of its personal-data
argument alone: with the ambient `window.location.href` made explicit, equal
personal input under two different page locations yields different outputs. -/
theorem generateJsonLd_ambient_dependence :
    generateJsonLd ⟨"n", "t", "p", "a", "e", []⟩ "https://one.example/" ≠
      generateJsonLd ⟨"n", "t", "p", "a", "e", []⟩ "https://two.example/" := by
  decide

/-- C8 (amended): `generateJsonLd` is a pure, deterministic function of its
personal-data argument and the current page URL: equal personal input and equal
location yield equal outputs, and the output's `url` field is exactly the
ambient location. -/
theorem generateJsonLd_pure (p q : Personal) (u v : String) (hp : p = q) (hu : u = v) :
    generateJsonLd p u = generateJsonLd q v ∧ (generateJsonLd p u).url = u := by
  subst hp; subst hu; exact ⟨rfl, rfl⟩

/-- Witness for the amended C8 at concrete inputs. -/
theorem generateJsonLd_pure_witness :
    generateJsonLd ⟨"n", "t", "p", "a", "e", []⟩ "https://one.example/" =
      generateJsonLd ⟨"n", "t", "p", "a", "e", []⟩ "https://one.example/" ∧
    (generateJsonLd ⟨"n", "t", "p", "a", "e", []⟩ "https://one.example/").url =
      "https://one.example/" :=
  generateJsonLd_pure ⟨"n", "t", "p", "a", "e", []⟩ ⟨"n", "t", "p", "a", "e", []⟩
    "https://one.example/" "https://one.example/" rfl rfl

/-- C4 counterexample: a stored theme value can exist (the empty string is a
stored value) and yet not be applied: with it, the OS preference still decides
the applied theme. -/
theorem initTheme_stored_empty_follows_os :
    initTheme (some "") true ≠ initTheme (some "") false ∧
    initTheme (some "") true ≠ applyTheme "" := by
  constructor <;> decide

/-- C4 (amended): initial theme resolution obeys the 3-tier precedence for
truthy stored values: a non-empty stored value is applied regardless of OS
preference; with no stored value or an empty stored string, OS-dark yields
dark and otherwise light is applied. -/
theorem initTheme_precedence (savedTheme : Option String) (prefersDark : Bool) :
    (∀ s, savedTheme = some s → s ≠ "" → initTheme savedTheme prefersDark = applyTheme s) ∧
    ((savedTheme = none ∨ savedTheme = some "") → prefersDark = true →
      initTheme savedTheme prefersDark = applyTheme "dark") ∧
    ((savedTheme = none ∨ savedTheme = some "") → prefersDark = false →
      initTheme savedTheme prefersDark = applyTheme "light") := by
  refine ⟨?_, ?_, ?_⟩
  · intro s hs hne
    subst hs
    simp [initTheme, jsTruthyStr, hne]
  · rintro (h | h) hd <;> subst h <;> subst hd <;> rfl
  · rintro (h | h) hd <;> subst h <;> subst hd <;> rfl

/-- Witness for the amended C4: all three tiers at concrete inputs. -/
theorem initTheme_precedence_witness :
    initTheme (some "light") true = applyTheme "light" ∧
    initTheme none true = applyTheme "dark" ∧
    initTheme none false = applyTheme "light" :=
  ⟨(initTheme_precedence (some "light") true).1 "light" rfl (by decide),
   (initTheme_precedence none true).2.1 (Or.inl rfl) rfl,
   (initTheme_precedence none false).2.2 (Or.inl rfl) rfl⟩

/-- C9 counterexample: the initial resolution re-persists whatever string was
already stored, so after a load with a tampered stored value the persisted
entry is neither `"light"` nor `"dark"`. -/
theorem themeStorage_nonliteral :
    ¬ ((initTheme (some "banana") false).stored = some "light" ∨
       (initTheme (some "banana") false).stored = some "dark") := by
  decide

/-- C9 (amended): provided the pre-existing stored value is absent, `"light"`
or `"dark"`, every theme operation (initial resolution, a toggle click, and
`applyTheme` on the two literals) leaves `"light"` or `"dark"` persisted under
the theme key. -/
theorem themeStorage_invariant (savedTheme : Option String) (prefersDark : Bool)
    (st : ThemeState)
    (h : savedTheme = none ∨ savedTheme = some "light" ∨ savedTheme = some "dark") :
    ((initTheme savedTheme prefersDark).stored = some "light" ∨
      (initTheme savedTheme prefersDark).stored = some "dark") ∧
    ((toggleTheme st).stored = some "light" ∨ (toggleTheme st).stored = some "dark") ∧
    (∀ t, t = "light" ∨ t = "dark" → (applyTheme t).stored = some t) := by
  refine ⟨?_, ?_, ?_⟩
  · rcases h with h | h | h <;> subst h <;> cases prefersDark <;> decide
  · cases hdm : st.darkMode
    · right; simp [toggleTheme, hdm, applyTheme]
    · left; simp [toggleTheme, hdm, applyTheme]
  · rintro t (h | h) <;> subst h <;> rfl

/-- Witness for the amended C9 at concrete inputs. -/
theorem themeStorage_invariant_witness :
    ((initTheme none true).stored = some "light" ∨
      (initTheme none true).stored = some "dark") ∧
    ((toggleTheme (applyTheme "light")).stored = some "light" ∨
      (toggleTheme (applyTheme "light")).stored = some "dark") ∧
    (∀ t, t = "light" ∨ t = "dark" → (applyTheme t).stored = some t) :=
  themeStorage_invariant none true (applyTheme "light") (Or.inl rfl)

/-- C5: a submission with a non-empty decoy (honeypot) field performs no mail
navigation, shows the success acknowledgment, logs the spam warning, and
resets the form. -/
theorem handleSubmit_honeypot (personalData : Personal) (f : FormFields)
    (h : f.fax ≠ "") :
    handleSubmit personalData f =
      { warned := some "Intento de spam detectado (honeypot)."
        alerted := some "Mensaje enviado (simulación). Gracias por tu interés."
        navigatedTo := none
        formReset := true } := by
  simp [handleSubmit, jsTruthyStr, h]

/-- Witness for C5 at a concrete bot-filled submission. -/
theorem handleSubmit_honeypot_witness :
    handleSubmit ⟨"O", "T", "P", "A", "o@e.org", []⟩ ⟨"N", "n@e.org", "S", "M", "bot"⟩ =
      { warned := some "Intento de spam detectado (honeypot)."
        alerted := some "Mensaje enviado (simulación). Gracias por tu interés."
        navigatedTo := none
        formReset := true } :=
  handleSubmit_honeypot ⟨"O", "T", "P", "A", "o@e.org", []⟩ ⟨"N", "n@e.org", "S", "M", "bot"⟩
    (by decide)

/-- C3 counterexample: an academic entry with absent `endDate` renders with an
empty end-date slot; the `renderAcademic` output does not contain the present
label `Actualidad`. -/
theorem renderAcademic_absent_end_no_present :
    strContains (renderAcademic [⟨"Grado", "UNED", some "2015-09-01", none⟩])
      "Actualidad" = false := by
  decide

/-- C3 (amended): an experience entry with absent `endDate` renders with the
present label `Actualidad` in its date range; an academic entry with absent
`endDate` instead renders with an empty end-date slot (`createTimeTag` of a
falsy date), not the present label. -/
theorem endDate_absent_rendering (job : Job) (side : String) (a : AcademicEntry) :
    (job.endDate = none → strContains (renderJobItem job side) "Actualidad" = true) ∧
    (a.endDate = none →
      renderAcademicItem a =
        academicItemHtml a.degree (createTimeTag a.startDate) "" a.institution) := by
  constructor
  · intro h
    simp only [strContains, renderJobItem, h, jsTruthyStr, Bool.false_eq_true, if_false,
      String.data_append, List.append_assoc]
    repeat first
      | exact occursIn_append_self _ _
      | apply occursIn_append_right
  · intro h
    simp [renderAcademicItem, createTimeTag, jsTruthyStr, h]

/-- Witness for the amended C3 at concrete entries with absent end dates. -/
theorem endDate_absent_rendering_witness :
    strContains
      (renderJobItem ⟨"T", "C", "L", some "2020-01-01", none, "D", []⟩ "")
      "Actualidad" = true ∧
    renderAcademicItem ⟨"Grado", "UNED", some "2015-09-01", none⟩ =
      academicItemHtml "Grado" (createTimeTag (some "2015-09-01")) "" "UNED" :=
  ⟨(endDate_absent_rendering ⟨"T", "C", "L", some "2020-01-01", none, "D", []⟩ ""
      ⟨"Grado", "UNED", some "2015-09-01", none⟩).1 rfl,
   (endDate_absent_rendering ⟨"T", "C", "L", some "2020-01-01", none, "D", []⟩ ""
      ⟨"Grado", "UNED", some "2015-09-01", none⟩).2 rfl⟩

/-- The side class handed to the item template always occurs in the rendered
timeline item. -/
theorem renderJobItem_contains_side (job : Job) (side : String) :
    strContains (renderJobItem job side) side = true := by
  simp only [strContains, renderJobItem, String.data_append, List.append_assoc]
  apply occursIn_append_right
  exact occursIn_append_self _ _

theorem expItemsFrom_getElem (l : List Job) : ∀ (k i : Nat),
    (expItemsFrom k l)[i]? =
      (l[i]?).map (fun job =>
        renderJobItem job (if (k + i) % 2 = 0 then "" else "timeline__item--right")) := by
  induction l with
  | nil => intro k i; simp [expItemsFrom]
  | cons job rest ih =>
    intro k i
    cases i with
    | zero => simp [expItemsFrom]
    | succ i' =>
      have hk : k + 1 + i' = k + (i' + 1) := by omega
      simp only [expItemsFrom, List.getElem?_cons_succ]
      rw [ih (k + 1) i', hk]

/-- C7: the `i`-th timeline entry of `renderExperience` is the item template on
the default (empty) side class when `i` is even, and carries the
`timeline__item--right` marker when `i` is odd. -/
theorem renderExperience_alternating_sides (experience : List Job) (i : Nat) :
    (renderExperienceItems experience)[i]? =
      (experience[i]?).map (fun job =>
        renderJobItem job (if i % 2 = 0 then "" else "timeline__item--right")) ∧
    (∀ job, experience[i]? = some job → i % 2 = 1 →
      ∀ it, (renderExperienceItems experience)[i]? = some it →
        strContains it "timeline__item--right" = true) := by
  have hmain := expItemsFrom_getElem experience 0 i
  simp only [Nat.zero_add] at hmain
  have hri : (renderExperienceItems experience)[i]? =
      (experience[i]?).map (fun job =>
        renderJobItem job (if i % 2 = 0 then "" else "timeline__item--right")) := by
    rw [renderExperienceItems]; exact hmain
  refine ⟨hri, ?_⟩
  intro job hjob hodd it hit
  rw [hri, hjob] at hit
  have hne : ¬ i % 2 = 0 := by omega
  rw [if_neg hne] at hit
  simp only [Option.map_some'] at hit
  rw [Option.some_inj] at hit
  rw [← hit]
  exact renderJobItem_contains_side job "timeline__item--right"

/-- Witness for C7 at a two-element list and the odd index 1. -/
theorem renderExperience_alternating_sides_witness :
    strContains
      (renderJobItem ⟨"t", "c", "l", none, none, "d", []⟩ "timeline__item--right")
      "timeline__item--right" = true :=
  (renderExperience_alternating_sides
      [⟨"t", "c", "l", none, none, "d", []⟩, ⟨"t", "c", "l", none, none, "d", []⟩] 1).2
    ⟨"t", "c", "l", none, none, "d", []⟩ rfl rfl
    (renderJobItem ⟨"t", "c", "l", none, none, "d", []⟩ "timeline__item--right")
    (by decide)

/-- C6: a submission with the decoy field empty navigates to a `mailto:` URL
addressed to the owner whose subject parameter is the URL-encoding of the
visitor subject prefixed with the fixed `[Portfolio] ` tag and whose body
parameter URL-decodes to text containing the visitor message; the form is then
reset. -/
theorem handleSubmit_mailto (personalData : Personal) (f : FormFields) (h : f.fax = "") :
    ∃ subjectParam bodyParam,
      (handleSubmit personalData f).navigatedTo =
        some ("mailto:" ++ personalData.email ++ "?subject=" ++ subjectParam ++
          "&body=" ++ bodyParam) ∧
      subjectParam = encodeURIComponent ("[Portfolio] " ++ f.subject) ∧
      strContains (decodeURIComponent bodyParam) f.message = true ∧
      (handleSubmit personalData f).formReset = true := by
  refine ⟨encodeURIComponent ("[Portfolio] " ++ f.subject),
    encodeURIComponent (mailtoBodyText personalData.name f.name f.email f.message),
    ?_, rfl, ?_, ?_⟩
  · simp [handleSubmit, jsTruthyStr, h]
  · rw [decodeURIComponent_encodeURIComponent]
    simp only [strContains, mailtoBodyText, String.data_append, List.append_assoc]
    repeat first
      | exact occursIn_append_self _ _
      | apply occursIn_append_right
  · simp [handleSubmit, jsTruthyStr, h]

/-- Witness for C6 at a concrete submission with subject `Hi`, message `Hello`. -/
theorem handleSubmit_mailto_witness :
    ∃ subjectParam bodyParam,
      (handleSubmit ⟨"Owner", "T", "P", "A", "owner@example.org", []⟩
          ⟨"Vis", "v@example.org", "Hi", "Hello", ""⟩).navigatedTo =
        some ("mailto:" ++ "owner@example.org" ++ "?subject=" ++ subjectParam ++
          "&body=" ++ bodyParam) ∧
      subjectParam = encodeURIComponent ("[Portfolio] " ++ "Hi") ∧
      strContains (decodeURIComponent bodyParam) "Hello" = true ∧
      (handleSubmit ⟨"Owner", "T", "P", "A", "owner@example.org", []⟩
          ⟨"Vis", "v@example.org", "Hi", "Hello", ""⟩).formReset = true :=
  handleSubmit_mailto ⟨"Owner", "T", "P", "A", "owner@example.org", []⟩
    ⟨"Vis", "v@example.org", "Hi", "Hello", ""⟩ rfl
